import Mathlib

/-!
Verification of the QRIS regional-coupling analysis engine
(`src/main_engine.py`, class `BIPolicyOptimizer`).

The engine's decision core is embedded shallowly:

* region records carry the two metrics as `Option ℚ` — `none` models a
  missing value (a `NaN` cell in the source's data table); every numeric
  comparison against a missing value is false, as in the source language;
* `performQuadrantAnalysis` embeds `_perform_quadrant_analysis`,
  including the `quantile(0.25)` / `quantile(0.75)` linear-interpolation
  thresholds (computed per column over the present values, as the data
  library does) and the ordered bucket conditions;
* `interpretCorrelation` embeds `_interpret_correlation`;
  `statisticalSignificance` embeds the significance field on line 361;
* `analyzeRegionalDynamics` embeds the guard and result shape of
  `analyze_regional_dynamics` (the insufficient-data error dict is
  modelled as an `Except.error`); the Pearson r/p computation itself is
  external library code, so the embedding records the exact value pairs
  handed to it (`correlationInputsOf`) rather than its numerics;
* `assessPillarRisk`, `generateResponse`, `processPillar` and
  `monitorMarketSentiment` embed the sentiment-monitoring core, with the
  collector's network outcome reified as a `CollectorOutcome` value
  (HTTP status plus parsed articles, or a raised-exception message).

Spec-side definitions (`specQuantile`, `specBucket`,
`specKeywordMatches`) restate the documented algorithm in its own terms
and are proved to coincide with the embedded code where claimed.
-/

namespace QrisEngine

/-- One row of the regional data table.  The two metrics required by the
core are `Option ℚ`; `none` models a missing (`NaN`) cell. -/
structure RegionRecord where
  province : String
  qris_merchant_density : Option ℚ
  pdrb_growth_pct : Option ℚ
deriving DecidableEq, Repr

/-- A record qualifies for a computation when both required metrics are
present (spec glossary: "qualifying record"). -/
def qualifies (r : RegionRecord) : Bool :=
  r.qris_merchant_density.isSome && r.pdrb_growth_pct.isSome

/-- Number of qualifying records in a dataset. -/
def qualifyingCount (data : List RegionRecord) : ℕ :=
  (data.filter qualifies).length

/-- `a >= b` on possibly-missing values: false whenever either side is
missing, mirroring float comparisons against NaN in the source. -/
def oge (a b : Option ℚ) : Bool :=
  match a with
  | none => false
  | some x =>
    match b with
    | none => false
    | some v => decide (v ≤ x)

/-- `a <= b` on possibly-missing values: false whenever either side is
missing. -/
def ole (a b : Option ℚ) : Bool :=
  match a with
  | none => false
  | some x =>
    match b with
    | none => false
    | some v => decide (x ≤ v)

/-- Insert into a sorted list, keeping ascending order. -/
def insertSorted (x : ℚ) : List ℚ → List ℚ
  | [] => [x]
  | y :: t => if x ≤ y then x :: y :: t else y :: insertSorted x t

/-- Ascending sort of the column values (the quantile routine of the
data library sorts its input). -/
def sortAsc (l : List ℚ) : List ℚ :=
  l.foldr insertSorted []

/-- Linear-interpolation quantile exactly as `Series.quantile` computes
it (numpy "linear" method): virtual rank `h = q*(n-1)`, then
`lo + frac(h) * (hi - lo)` between the neighbouring order statistics. -/
def quantileLinear (values : List ℚ) (q : ℚ) : ℚ :=
  let s := sortAsc values
  let n := s.length
  let h : ℚ := q * ((n : ℚ) - 1)
  let i : ℕ := h.floor.toNat
  let lo := s.getD i 0
  let hi := s.getD (i + 1) lo
  lo + (h - (h.floor : ℚ)) * (hi - lo)

/-- `Series.quantile` on a column: `none` when the column holds no
present value (the library yields NaN there), otherwise the
linear-interpolation quantile of the present values. -/
def colQuantile (values : List ℚ) (q : ℚ) : Option ℚ :=
  if values = [] then none else some (quantileLinear values q)

/-- The adoption-density column: present values of
`qris_merchant_density` (the quantile routine skips missing cells). -/
def xsOf (data : List RegionRecord) : List ℚ :=
  data.filterMap (·.qris_merchant_density)

/-- The growth-rate column: present values of `pdrb_growth_pct`. -/
def ysOf (data : List RegionRecord) : List ℚ :=
  data.filterMap (·.pdrb_growth_pct)

/-- The ordered bucket conditions of `_perform_quadrant_analysis`
(lines 424-438): quadrant name and strategy text, first matching clause
wins, all four boundary comparisons inclusive. -/
def classifyQuadrant (xq1 xq3 yq1 yq3 x y : Option ℚ) : String × String :=
  if oge x xq3 && oge y yq3 then
    ("HIGH_PRIORITY_STARS", "Deepen transaction value, showcase as success case")
  else if oge x xq3 && ole y yq1 then
    ("SATURATED_MARKETS", "Focus on efficiency, reduce MDR if applicable")
  else if ole x xq1 && oge y yq3 then
    ("OPPORTUNITY_GAPS", "Target with \x27SIAP QRIS\x27 campaign, investigate barriers")
  else if ole x xq1 && ole y yq1 then
    ("FOUNDATIONAL_DEVELOPMENT", "Basic digital infrastructure, financial literacy")
  else
    ("TRANSITIONAL", "Monitor trends, provide standard support")

/-- One entry of `province_details`. -/
structure QuadrantEntry where
  province : String
  quadrant : String
  strategy : String
  qris_density : Option ℚ
  pdrb_growth : Option ℚ
deriving DecidableEq, Repr

/-- Result of the quadrant analysis: `province_details` plus the
`quadrant_distribution` count mapping (an insertion-ordered dict). -/
structure QuadrantResult where
  details : List QuadrantEntry
  counts : List (String × ℕ)
deriving DecidableEq, Repr

/-- `quadrant_counts[name] = quadrant_counts.get(name, 0) + 1` on an
insertion-ordered association list. -/
def bumpCount : List (String × ℕ) → String → List (String × ℕ)
  | [], k => [(k, 1)]
  | (k', v) :: rest, k =>
    if k' = k then (k', v + 1) :: rest else (k', v) :: bumpCount rest k

/-- The classification loop of `_perform_quadrant_analysis` (lines
419-446): the four quartile thresholds of the current table, then one
classified entry per row. -/
def quadrantDetails (data : List RegionRecord) : List QuadrantEntry :=
  data.map fun r =>
    let qs := classifyQuadrant
      (colQuantile (xsOf data) (1/4)) (colQuantile (xsOf data) (3/4))
      (colQuantile (ysOf data) (1/4)) (colQuantile (ysOf data) (3/4))
      r.qris_merchant_density r.pdrb_growth_pct
    { province := r.province
      quadrant := qs.1
      strategy := qs.2
      qris_density := r.qris_merchant_density
      pdrb_growth := r.pdrb_growth_pct }

/-- The counting loop of `_perform_quadrant_analysis` (lines 448-452). -/
def quadrantCounts (details : List QuadrantEntry) : List (String × ℕ) :=
  details.foldl (fun c e => bumpCount c e.quadrant) []

/-- `_perform_quadrant_analysis` (lines 408-459): guard on the total row
count, then the classified entries and the bucket count mapping. -/
def performQuadrantAnalysis (data : List RegionRecord) :
    Except String QuadrantResult :=
  if data.length < 4 then
    Except.error "Insufficient data for quadrant analysis"
  else
    Except.ok { details := quadrantDetails data
                counts := quadrantCounts (quadrantDetails data) }

/-- Per-province (identifier, bucket) pairs of a successful quadrant
analysis; empty on the error result. -/
def quadrantPairs (data : List RegionRecord) : List (String × String) :=
  match performQuadrantAnalysis data with
  | Except.ok res => res.details.map fun e => (e.province, e.quadrant)
  | Except.error _ => []

/-- The exact value pairs handed to the Pearson correlation routine:
`analyze` passes the two full columns, one pair per row, missing cells
included (lines 352-355). -/
def correlationInputsOf (data : List RegionRecord) :
    List (Option ℚ × Option ℚ) :=
  data.map fun r => (r.qris_merchant_density, r.pdrb_growth_pct)

/-- Shape of a successful `analyze_regional_dynamics` result that the
claims are about: the correlation inputs and the nested quadrant
analysis (itself possibly the insufficient-data error dict). -/
structure AnalysisResults where
  corrInputs : List (Option ℚ × Option ℚ)
  quadrant : Except String QuadrantResult

/-- `analyze_regional_dynamics` (lines 288-312): returns the
insufficient-data error when the table is absent or has fewer than 2
rows, otherwise the assembled results. -/
def analyzeRegionalDynamics (regionalData : Option (List RegionRecord)) :
    Except String AnalysisResults :=
  match regionalData with
  | none => Except.error "Insufficient data for analysis"
  | some data =>
    if data.length < 2 then Except.error "Insufficient data for analysis"
    else Except.ok { corrInputs := correlationInputsOf data
                     quadrant := performQuadrantAnalysis data }

/-- `_interpret_correlation` (lines 374-391), string for string. -/
def interpretCorrelation (r p : ℚ) (n : ℕ) : String :=
  if n < 10 then
    "PRELIMINARY: Requires full provincial dataset (n=" ++ toString n
      ++ " < 20 minimum)"
  else if p ≥ 0.05 then
    "No statistically significant relationship at 95% confidence"
  else if r > 0.7 then
    "Strong positive coupling: Economic growth and QRIS adoption move together"
  else if r > 0.3 then
    "Moderate positive relationship"
  else if r > -0.3 then
    "Weak or no linear relationship"
  else if r > -0.7 then
    "Moderate negative relationship: Potential for targeted intervention"
  else
    "Strong negative relationship: Requires strategic investigation"

/-- The `statistical_significance` field (line 361). -/
def statisticalSignificance (p : ℚ) : String :=
  if p < 0.05 then "SIGNIFICANT" else "NOT SIGNIFICANT"

/-- `_calculate_statistical_power` (lines 393-406). -/
def calculateStatisticalPower (n : ℕ) : String :=
  if n ≥ 30 then "EXCELLENT (n >= 30)"
  else if n ≥ 20 then "GOOD (n >= 20)"
  else if n ≥ 10 then "MODERATE (n >= 10)"
  else if n ≥ 5 then "LIMITED (n < 10)"
  else "INSUFFICIENT FOR POLICY DECISIONS"

/-- An article as consumed from the collector's JSON: the title field
may be absent. -/
structure Article where
  title : Option String
deriving DecidableEq, Repr

/-- ASCII lowering of one character, the fragment of `str.lower` the
keyword data exercises. -/
def lowerChar (c : Char) : Char :=
  if 'A' ≤ c ∧ c ≤ 'Z' then Char.ofNat (c.toNat + 32) else c

/-- `str.lower` on a title. -/
def lowerStr (s : String) : String :=
  ⟨s.data.map lowerChar⟩

/-- `sep.join(parts)`. -/
def joinStr (sep : String) : List String → String
  | [] => ""
  | [s] => s
  | s :: r :: t => s ++ sep ++ joinStr sep (r :: t)

/-- Does `pat` occur starting at the head of `s`? -/
def leadsWith : List Char → List Char → Bool
  | [], _ => true
  | _ :: _, [] => false
  | a :: p, b :: s => a == b && leadsWith p s

/-- Does `pat` occur as a contiguous run anywhere in `s`?  This is the
`in` test of the source language on strings. -/
def occursIn (pat : List Char) : List Char → Bool
  | [] => leadsWith pat []
  | b :: s => leadsWith pat (b :: s) || occursIn pat s

/-- `keyword in titles` on strings. -/
def keywordIn (kw text : String) : Bool :=
  occursIn kw.data text.data

/-- The per-pillar keyword sets of `_assess_pillar_risk` (lines
644-647); pillars outside the dict have none. -/
def riskKeywords (pillar : String) : Option (List String) :=
  if pillar = "RISK_FRAUD" then
    some ["penipuan", "scam", "korban", "polisi", "lapor"]
  else if pillar = "SYSTEM_STABILITY" then
    some ["down", "error", "gagal", "gangguan", "komplain"]
  else
    none

/-- `" ".join(lowered titles)` with the per-article
`art.get(title-key, empty)` default (line 649). -/
def joinedTitles (articles : List Article) : String :=
  joinStr " " (articles.map fun a => lowerStr (a.title.getD ""))

/-- `_assess_pillar_risk` (lines 638-658). -/
def assessPillarRisk (articles : List Article) (pillar : String) : String :=
  if articles.isEmpty then "LOW"
  else
    match riskKeywords pillar with
    | some kws =>
      let titles := joinedTitles articles
      let matchCnt := kws.countP fun k => keywordIn k titles
      if 3 ≤ matchCnt then "HIGH"
      else if 1 ≤ matchCnt then "MEDIUM"
      else "LOW"
    | none => "LOW"

/-- `_generate_response` (lines 660-669). -/
def generateResponse (actionTeam : String) (articleCount : ℕ) : String :=
  if articleCount = 0 then "No action required - continue monitoring"
  else if articleCount ≤ 2 then "Standard monitoring by " ++ actionTeam
  else if articleCount ≤ 5 then
    "Enhanced monitoring recommended - " ++ actionTeam ++ " should review"
  else
    "Immediate attention required - " ++ actionTeam
      ++ " should prepare response"

/-- Static configuration of one monitoring pillar. -/
structure PillarConfig where
  query : String
  weight : ℚ
  action_team : String
deriving DecidableEq, Repr

/-- `MONITORING_PILLARS` (lines 52-78), in source order. -/
def MONITORING_PILLARS : List (String × PillarConfig) :=
  [ ("RISK_FRAUD",
     { query := "QRIS AND (Penipuan OR Scam OR Phishing OR \x27Saldo Hilang\x27)"
       weight := 0.3
       action_team := "BI Supervision & Consumer Protection" }),
    ("SYSTEM_STABILITY",
     { query := "QRIS AND (Gangguan OR Error OR Down OR Maintenance)"
       weight := 0.25
       action_team := "BI Payment System Operations" }),
    ("MERCHANT_ADOPTION",
     { query := "(UMKM OR Pedagang OR Warung) AND (QRIS OR \x27Pembayaran Digital\x27)"
       weight := 0.2
       action_team := "BI Financial Inclusion Division" }),
    ("CONSUMER_SENTIMENT",
     { query := "(QRIS OR \x27QR Payment\x27) AND (Mudah OR Praktis OR Ribet OR Mahal)"
       weight := 0.15
       action_team := "BI Communications Department" }),
    ("COMPETITIVE_LANDSCAPE",
     { query := "(GoPay OR OVO OR DANA OR LinkAja) AND (QRIS OR \x27QR Code\x27)"
       weight := 0.1
       action_team := "BI Market Intelligence" }) ]

/-- What one collector call came back with: an HTTP response (status
code plus the parsed article list) or a raised exception's message. -/
inductive CollectorOutcome where
  | response (status : ℕ) (articles : List Article)
  | failure (msg : String)
deriving DecidableEq, Repr

/-- True when the outcome is an unreachable endpoint or a non-200
response. -/
def collectorFailed : CollectorOutcome → Bool
  | CollectorOutcome.response status _ => status ≠ 200
  | CollectorOutcome.failure _ => true

/-- One pillar's entry in `findings`. -/
structure Finding where
  articles_found : Option ℕ
  risk_level : String
  sample_headlines : List String
  action_team : Option String
  recommended_response : Option String
  error : Option String
deriving DecidableEq, Repr

/-- The body of the monitoring loop in `monitor_market_sentiment`
(lines 590-634): the 200 branch builds the full finding, a non-200
response yields the API-error finding with risk `UNKNOWN`, and a raised
exception is caught into a finding with risk `MONITORING_FAILED`. -/
def processPillar (pillar : String) (cfg : PillarConfig) :
    CollectorOutcome → Finding
  | CollectorOutcome.response status articles =>
    if status = 200 then
      { articles_found := some articles.length
        risk_level := assessPillarRisk articles pillar
        sample_headlines :=
          (articles.take 2).map fun art => (art.title.getD "No title").take 80
        action_team := some cfg.action_team
        recommended_response :=
          some (generateResponse cfg.action_team articles.length)
        error := none }
    else
      { articles_found := none
        risk_level := "UNKNOWN"
        sample_headlines := []
        action_team := none
        recommended_response := none
        error := some ("API Error: " ++ toString status) }
  | CollectorOutcome.failure msg =>
    { articles_found := none
      risk_level := "MONITORING_FAILED"
      sample_headlines := []
      action_team := none
      recommended_response := none
      error := some msg }

/-- `monitor_market_sentiment`'s findings map: every pillar is queried
in order and every pillar receives a finding, whatever its collector
outcome was. -/
def monitorMarketSentiment (collector : String → CollectorOutcome) :
    List (String × Finding) :=
  MONITORING_PILLARS.map fun pc =>
    (pc.1, processPillar pc.1 pc.2 (collector pc.1))

/-! ### Spec-side definitions

These restate the documented algorithm in the spec's own words, to be
compared with the embedded code. -/

/-- Modelled from the spec: the "inclusive-linear-interpolation quantile
method" — the quantile at rank `h = q*(n-1)` over the sorted values,
read as the convex combination `(1-frac)*lower + frac*upper` of the two
closest order statistics. -/
def specQuantile (values : List ℚ) (q : ℚ) : ℚ :=
  let s := sortAsc values
  let n := s.length
  let h : ℚ := q * ((n : ℚ) - 1)
  let i : ℕ := h.floor.toNat
  let f : ℚ := h - (h.floor : ℚ)
  (1 - f) * s.getD i 0 + f * s.getD (i + 1) (s.getD i 0)

/-- Modelled from the spec: the fixed-order bucket rules on plain
numeric values, first matching clause wins, boundaries inclusive. -/
def specBucket (xq1 xq3 yq1 yq3 x y : ℚ) : String :=
  if x ≥ xq3 ∧ y ≥ yq3 then "HIGH_PRIORITY_STARS"
  else if x ≥ xq3 ∧ y ≤ yq1 then "SATURATED_MARKETS"
  else if x ≤ xq1 ∧ y ≥ yq3 then "OPPORTUNITY_GAPS"
  else if x ≤ xq1 ∧ y ≤ yq1 then "FOUNDATIONAL_DEVELOPMENT"
  else "TRANSITIONAL"

/-- Modelled from the spec: how many of the keywords occur as
case-insensitive substrings of the concatenated headlines (both sides
lowered). -/
def specKeywordMatches (kws : List String) (headlines : List String) : ℕ :=
  kws.countP fun k =>
    occursIn (lowerStr k).data (lowerStr (joinStr " " headlines)).data

/-! ### Concrete datasets used by witnesses and counterexamples -/

/-- Four fully-populated records with strictly increasing metrics. -/
def d4ex : List RegionRecord :=
  [ { province := "Aceh", qris_merchant_density := some 1, pdrb_growth_pct := some 10 },
    { province := "Bali", qris_merchant_density := some 2, pdrb_growth_pct := some 20 },
    { province := "Jawa Barat", qris_merchant_density := some 3, pdrb_growth_pct := some 30 },
    { province := "Papua", qris_merchant_density := some 4, pdrb_growth_pct := some 40 } ]

/-- The four records of `d4ex` plus one record with both metrics
missing: five rows, four qualifying. -/
def d5ex : List RegionRecord :=
  d4ex ++ [ { province := "P5", qris_merchant_density := none, pdrb_growth_pct := none } ]

/-- Two rows, one qualifying. -/
def d2m : List RegionRecord :=
  [ { province := "Aceh", qris_merchant_density := some 1, pdrb_growth_pct := some 5 },
    { province := "NoData", qris_merchant_density := none, pdrb_growth_pct := none } ]

/-- Four rows, three qualifying. -/
def d4m : List RegionRecord :=
  [ { province := "Aceh", qris_merchant_density := some 1, pdrb_growth_pct := some 10 },
    { province := "Bali", qris_merchant_density := some 2, pdrb_growth_pct := some 20 },
    { province := "Jawa Barat", qris_merchant_density := some 3, pdrb_growth_pct := some 30 },
    { province := "NoData", qris_merchant_density := none, pdrb_growth_pct := none } ]

/-- A degenerate dataset: four records all at the same point, so every
quartile of either axis equals that point. -/
def dDeg : List RegionRecord :=
  [ { province := "D1", qris_merchant_density := some 0, pdrb_growth_pct := some 0 },
    { province := "D2", qris_merchant_density := some 0, pdrb_growth_pct := some 0 },
    { province := "D3", qris_merchant_density := some 0, pdrb_growth_pct := some 0 },
    { province := "D4", qris_merchant_density := some 0, pdrb_growth_pct := some 0 } ]

/-- The fraud-pillar headline scenario of the spec. -/
def exArticles : List Article :=
  [ { title := some "Waspada Penipuan QRIS marak" },
    { title := some "Korban lapor ke polisi" },
    { title := some "Modus scam baru" } ]

/-- A collector for which every pillar's call fails. -/
def badCollector : String → CollectorOutcome :=
  fun pillar =>
    if pillar = "RISK_FRAUD" then CollectorOutcome.failure "Connection timed out"
    else CollectorOutcome.response 503 []

/-! ### Helper lemmas -/

/-- On at least four rows the quadrant analysis succeeds with the
classified entries and their counts. -/
lemma quadrant_ok (data : List RegionRecord) (h4 : 4 ≤ data.length) :
    performQuadrantAnalysis data =
      Except.ok { details := quadrantDetails data
                  counts := quadrantCounts (quadrantDetails data) } := by
  unfold performQuadrantAnalysis
  rw [if_neg (by omega)]

/-- With at least one qualifying record both metric columns are
nonempty. -/
lemma cols_ne_nil (data : List RegionRecord) (h : 1 ≤ qualifyingCount data) :
    xsOf data ≠ [] ∧ ysOf data ≠ [] := by
  unfold qualifyingCount at h
  have hne : data.filter qualifies ≠ [] := by
    intro he
    rw [he] at h
    simp at h
  obtain ⟨r, hr⟩ := List.exists_mem_of_ne_nil _ hne
  have hrq : qualifies r = true := List.of_mem_filter hr
  have hrd : r ∈ data := List.mem_of_mem_filter hr
  unfold qualifies at hrq
  rw [Bool.and_eq_true] at hrq
  obtain ⟨h1, h2⟩ := hrq
  obtain ⟨x, hx⟩ := Option.isSome_iff_exists.mp h1
  obtain ⟨y, hy⟩ := Option.isSome_iff_exists.mp h2
  refine ⟨List.ne_nil_of_mem (List.mem_filterMap.mpr ⟨r, hrd, hx⟩),
    List.ne_nil_of_mem (List.mem_filterMap.mpr ⟨r, hrd, hy⟩)⟩

/-- On a nonempty column the library quantile is the present-value
linear interpolation. -/
lemma colQuantile_some (v : List ℚ) (hv : v ≠ []) (q : ℚ) :
    colQuantile v q = some (quantileLinear v q) := by
  unfold colQuantile
  rw [if_neg hv]

/-- The spec's convex-combination reading of the inclusive linear
interpolation agrees with the library's `lo + frac*(hi-lo)` form. -/
lemma specQuantile_eq (v : List ℚ) (q : ℚ) :
    specQuantile v q = quantileLinear v q := by
  unfold specQuantile quantileLinear
  ring

/-- On two present values the code's ordered bucket conditions compute
exactly the spec's first-match bucket. -/
lemma classify_fst_some (a b c d x y : ℚ) :
    (classifyQuadrant (some a) (some b) (some c) (some d) (some x) (some y)).1
      = specBucket a b c d x y := by
  simp only [classifyQuadrant, specBucket, oge, ole, ge_iff_le]
  by_cases h1 : b ≤ x <;> by_cases h2 : d ≤ y <;> by_cases h3 : y ≤ c <;>
    by_cases h4 : x ≤ a <;>
    simp [h1, h2, h3, h4]

/-- A record with a missing value on either axis fails every boundary
comparison and falls through to the last bucket. -/
lemma classify_fst_missing (xq1 xq3 yq1 yq3 x y : Option ℚ)
    (h : x = none ∨ y = none) :
    (classifyQuadrant xq1 xq3 yq1 yq3 x y).1 = "TRANSITIONAL" := by
  rcases h with h | h
  · subst h
    simp [classifyQuadrant, oge, ole]
  · subst h
    cases x with
    | none => simp [classifyQuadrant, oge, ole]
    | some x0 => simp [classifyQuadrant, oge, ole]

/-- Bumping one key raises the total count by one. -/
lemma sum_bumpCount (c : List (String × ℕ)) (k : String) :
    ((bumpCount c k).map Prod.snd).sum = ((c.map Prod.snd).sum) + 1 := by
  induction c with
  | nil => simp [bumpCount]
  | cons p rest ih =>
    obtain ⟨k', v⟩ := p
    by_cases hk : k' = k
    · simp [bumpCount, hk]
      omega
    · simp [bumpCount, hk, ih]
      omega

/-- Folding the counting loop adds the number of processed entries to
the total count. -/
lemma sum_fold_bump (l : List QuadrantEntry) :
    ∀ c : List (String × ℕ),
      (((l.foldl (fun c e => bumpCount c e.quadrant) c).map Prod.snd).sum)
        = ((c.map Prod.snd).sum) + l.length := by
  induction l with
  | nil =>
    intro c
    simp
  | cons e t ih =>
    intro c
    rw [List.foldl_cons, ih, sum_bumpCount]
    simp only [List.length_cons]
    omega

/-- The bucket counts of a detail list total its length. -/
lemma sum_quadrantCounts (l : List QuadrantEntry) :
    ((quadrantCounts l).map Prod.snd).sum = l.length := by
  unfold quadrantCounts
  rw [sum_fold_bump]
  simp

/-- On a success the per-province pairs are the projected details. -/
lemma quadrantPairs_eq (data : List RegionRecord) (h4 : 4 ≤ data.length) :
    quadrantPairs data
      = (quadrantDetails data).map fun e => (e.province, e.quadrant) := by
  unfold quadrantPairs
  rw [quadrant_ok data h4]

/-- The record at the first quartile of X and the third quartile of Y
matches the third clause, so the first-match bucket is one of the first
three — never "TRANSITIONAL" — and is "OPPORTUNITY_GAPS" whenever the X
quartiles are distinct. -/
lemma specBucket_q1x_q3y (a b c d : ℚ) :
    specBucket a b c d a d ≠ "TRANSITIONAL"
      ∧ (a < b → specBucket a b c d a d = "OPPORTUNITY_GAPS") := by
  constructor
  · by_cases h1 : a ≥ b ∧ d ≥ d
    · simp only [specBucket]
      rw [if_pos h1]
      decide
    · by_cases h2 : a ≥ b ∧ d ≤ c
      · simp only [specBucket]
        rw [if_neg h1, if_pos h2]
        decide
      · simp only [specBucket]
        rw [if_neg h1, if_neg h2, if_pos ⟨le_refl a, le_refl d⟩]
        decide
  · intro hab
    have h1 : ¬(a ≥ b ∧ d ≥ d) := fun hc => absurd hc.1 (not_le.mpr hab)
    have h2 : ¬(a ≥ b ∧ d ≤ c) := fun hc => absurd hc.1 (not_le.mpr hab)
    simp only [specBucket]
    rw [if_neg h1, if_neg h2, if_pos ⟨le_refl a, le_refl d⟩]

/-- The record at the third quartile of X and the first quartile of Y
matches the second clause, so its bucket is "HIGH_PRIORITY_STARS" or
"SATURATED_MARKETS" — never "TRANSITIONAL" — and is
"SATURATED_MARKETS" whenever the Y quartiles are distinct. -/
lemma specBucket_q3x_q1y (a b c d : ℚ) :
    specBucket a b c d b c ≠ "TRANSITIONAL"
      ∧ (c < d → specBucket a b c d b c = "SATURATED_MARKETS") := by
  constructor
  · by_cases h1 : b ≥ b ∧ c ≥ d
    · simp only [specBucket]
      rw [if_pos h1]
      decide
    · simp only [specBucket]
      rw [if_neg h1, if_pos ⟨le_refl b, le_refl c⟩]
      decide
  · intro hcd
    have h1 : ¬(b ≥ b ∧ c ≥ d) := fun hc => absurd hc.2 (not_le.mpr hcd)
    simp only [specBucket]
    rw [if_neg h1, if_pos ⟨le_refl b, le_refl c⟩]

/-- Lowering distributes over concatenation. -/
lemma lowerStr_append (a b : String) :
    lowerStr (a ++ b) = lowerStr a ++ lowerStr b := by
  cases a with
  | mk la =>
    cases b with
    | mk lb =>
      show lowerStr ⟨la ++ lb⟩ = _
      simp [lowerStr]
      rfl

/-- Lowering titles before joining is the same as lowering the joined
text: case-insensitivity over the concatenated headlines. -/
lemma lowerStr_join : ∀ hs : List String,
    lowerStr (joinStr " " hs) = joinStr " " (hs.map lowerStr)
  | [] => by decide
  | [s] => rfl
  | s :: r :: t => by
    have ih := lowerStr_join (r :: t)
    have hsp : lowerStr " " = " " := by decide
    simp only [joinStr, List.map]
    rw [lowerStr_append, lowerStr_append, hsp, ih]
    simp only [List.map]

/-- The code's joined lowered titles equal the lowered concatenation of
the extracted headlines. -/
lemma joinedTitles_eq (l : List Article) :
    joinedTitles l = lowerStr (joinStr " " (l.map fun a => a.title.getD "")) := by
  unfold joinedTitles
  rw [lowerStr_join, List.map_map]
  rfl

/-! ### Claims -/

/-- C2 (amended): the Summarizer path returns the insufficient-data
error — with no partial result — when the table is absent or holds
fewer than 2 rows, and the Classifier returns its insufficient-data
error when the table holds fewer than 4 rows; both thresholds count
every row of the table, including rows with missing metrics. -/
theorem c2_insufficient_data_errors :
    (analyzeRegionalDynamics none = Except.error "Insufficient data for analysis")
    ∧ (∀ data : List RegionRecord, data.length < 2 →
        analyzeRegionalDynamics (some data)
          = Except.error "Insufficient data for analysis")
    ∧ (∀ data : List RegionRecord, data.length < 4 →
        performQuadrantAnalysis data
          = Except.error "Insufficient data for quadrant analysis") := by
  refine ⟨rfl, ?_, ?_⟩
  · intro data h
    simp only [analyzeRegionalDynamics]
    rw [if_pos h]
  · intro data h
    unfold performQuadrantAnalysis
    rw [if_pos h]

/-- Witness for C2: a one-row table is rejected by the analysis entry
point and a three-row table is rejected by the quadrant classifier. -/
theorem c2_insufficient_data_errors_witness :
    analyzeRegionalDynamics
        (some [{ province := "Aceh", qris_merchant_density := some 1,
                 pdrb_growth_pct := some 5 }])
      = Except.error "Insufficient data for analysis"
    ∧ performQuadrantAnalysis
        [ { province := "Aceh", qris_merchant_density := some 1, pdrb_growth_pct := some 5 },
          { province := "Bali", qris_merchant_density := some 2, pdrb_growth_pct := some 6 },
          { province := "Jawa Barat", qris_merchant_density := some 3, pdrb_growth_pct := some 7 } ]
      = Except.error "Insufficient data for quadrant analysis" :=
  ⟨c2_insufficient_data_errors.2.1 _ (by decide),
   c2_insufficient_data_errors.2.2 _ (by decide)⟩

/-- Counterexample for C2 as stated: `d2m` has only 1 qualifying record
and `d4m` only 3, yet the Summarizer path and the Classifier both
succeed, because the guards count total rows, not qualifying ones. -/
theorem c2_qualifying_count_cex :
    qualifyingCount d2m = 1
    ∧ (analyzeRegionalDynamics (some d2m)).toOption.isSome = true
    ∧ qualifyingCount d4m = 3
    ∧ (performQuadrantAnalysis d4m).toOption.isSome = true := by
  decide

/-- C3 (amended): for any sample below 10 the interpretation string is
the fixed preliminary-dataset sentence (whose only variable part is the
printed sample size), regardless of `r` and `p`. -/
theorem c3_preliminary_label (r p : ℚ) (n : ℕ) (h : n < 10) :
    interpretCorrelation r p n
      = "PRELIMINARY: Requires full provincial dataset (n=" ++ toString n
          ++ " < 20 minimum)" := by
  unfold interpretCorrelation
  rw [if_pos h]

/-- Witness for C3: the n = 4 instance of the preliminary label. -/
theorem c3_preliminary_label_witness :
    interpretCorrelation 1 0 4
      = "PRELIMINARY: Requires full provincial dataset (n=4 < 20 minimum)" := by
  rw [c3_preliminary_label 1 0 4 (by omega)]
  decide

/-- Counterexample for C3 as stated: at n = 4 the label is the
preliminary-dataset sentence, not the exact string
"PRELIMINARY — insufficient sample", and it even varies with n. -/
theorem c3_label_string_cex :
    interpretCorrelation 1 0 4
        = "PRELIMINARY: Requires full provincial dataset (n=4 < 20 minimum)"
    ∧ interpretCorrelation 1 0 4 ≠ "PRELIMINARY — insufficient sample"
    ∧ interpretCorrelation 1 0 9 ≠ interpretCorrelation 1 0 4 := by
  with_unfolding_all decide

/-- C4 (amended): with n at least 10, p at or above 0.05 yields the
not-significant sentence; otherwise r is bucketed with strict lower
bounds: r > 0.7 strong positive, 0.3 < r <= 0.7 moderate positive,
-0.3 < r <= 0.3 weak/none, -0.7 < r <= -0.3 moderate negative, and
r <= -0.7 strong negative — so r = -0.3 lands in the moderate negative
band, not the weak/none band. -/
theorem c4_interpretation_bands (r p : ℚ) (n : ℕ) (hn : 10 ≤ n) :
    (0.05 ≤ p → interpretCorrelation r p n
        = "No statistically significant relationship at 95% confidence")
    ∧ (p < 0.05 →
        (0.7 < r → interpretCorrelation r p n
            = "Strong positive coupling: Economic growth and QRIS adoption move together")
        ∧ (0.3 < r → r ≤ 0.7 → interpretCorrelation r p n
            = "Moderate positive relationship")
        ∧ (-0.3 < r → r ≤ 0.3 → interpretCorrelation r p n
            = "Weak or no linear relationship")
        ∧ (-0.7 < r → r ≤ -0.3 → interpretCorrelation r p n
            = "Moderate negative relationship: Potential for targeted intervention")
        ∧ (r ≤ -0.7 → interpretCorrelation r p n
            = "Strong negative relationship: Requires strategic investigation")) := by
  have h10 : ¬ n < 10 := by omega
  constructor
  · intro hp
    unfold interpretCorrelation
    rw [if_neg h10, if_pos hp]
  · intro hp
    have hnp : ¬ p ≥ 0.05 := not_le.mpr hp
    refine ⟨?_, ?_, ?_, ?_, ?_⟩
    · intro h1
      unfold interpretCorrelation
      rw [if_neg h10, if_neg hnp, if_pos h1]
    · intro h1 h2
      unfold interpretCorrelation
      rw [if_neg h10, if_neg hnp, if_neg (by linarith : ¬ r > 0.7), if_pos h1]
    · intro h1 h2
      unfold interpretCorrelation
      rw [if_neg h10, if_neg hnp, if_neg (by linarith : ¬ r > 0.7),
        if_neg (by linarith : ¬ r > 0.3), if_pos h1]
    · intro h1 h2
      unfold interpretCorrelation
      rw [if_neg h10, if_neg hnp, if_neg (by linarith : ¬ r > 0.7),
        if_neg (by linarith : ¬ r > 0.3), if_neg (by linarith : ¬ r > -0.3),
        if_pos h1]
    · intro h1
      unfold interpretCorrelation
      rw [if_neg h10, if_neg hnp, if_neg (by linarith : ¬ r > 0.7),
        if_neg (by linarith : ¬ r > 0.3), if_neg (by linarith : ¬ r > -0.3),
        if_neg (by linarith : ¬ r > -0.7)]

/-- Witness for C4: the moderate negative band at r = -0.3 exactly. -/
theorem c4_interpretation_bands_witness :
    interpretCorrelation (-0.3) 0.01 10
      = "Moderate negative relationship: Potential for targeted intervention" :=
  ((c4_interpretation_bands (-0.3) 0.01 10 (by omega)).2
    (by norm_num)).2.2.2.1 (by norm_num) (by norm_num)

/-- Counterexample for C4 as stated: at r = -0.3 (n = 10, p < 0.05) the
code yields the moderate negative sentence, not the weak/none band the
claim predicts; r = -0.7 likewise falls in the strong negative band. -/
theorem c4_boundary_cex :
    interpretCorrelation (-0.3) 0.01 10
        = "Moderate negative relationship: Potential for targeted intervention"
    ∧ interpretCorrelation (-0.3) 0.01 10 ≠ "Weak or no linear relationship"
    ∧ interpretCorrelation (-0.7) 0.01 10
        = "Strong negative relationship: Requires strategic investigation" := by
  with_unfolding_all decide

/-- C8 (confirmed): the response tiers of `_generate_response` are
exactly: 0 articles → the no-action tier, 1-2 → standard monitoring,
3-5 → enhanced monitoring, more than 5 → immediate attention. -/
theorem c8_response_tiers (team : String) (n : ℕ) :
    (n = 0 → generateResponse team n = "No action required - continue monitoring")
    ∧ (1 ≤ n → n ≤ 2 → generateResponse team n
        = "Standard monitoring by " ++ team)
    ∧ (3 ≤ n → n ≤ 5 → generateResponse team n
        = "Enhanced monitoring recommended - " ++ team ++ " should review")
    ∧ (5 < n → generateResponse team n
        = "Immediate attention required - " ++ team ++ " should prepare response") := by
  refine ⟨?_, ?_, ?_, ?_⟩
  · intro h
    unfold generateResponse
    rw [if_pos h]
  · intro h1 h2
    unfold generateResponse
    rw [if_neg (by omega), if_pos h2]
  · intro h1 h2
    unfold generateResponse
    rw [if_neg (by omega), if_neg (by omega), if_pos h2]
  · intro h
    unfold generateResponse
    rw [if_neg (by omega), if_neg (by omega), if_neg (by omega)]

/-- Witness for C8: 0 articles give the no-action tier and 7 articles
give the immediate-attention tier. -/
theorem c8_response_tiers_witness :
    generateResponse "BI Supervision & Consumer Protection" 0
        = "No action required - continue monitoring"
    ∧ generateResponse "BI Supervision & Consumer Protection" 7
        = "Immediate attention required - BI Supervision & Consumer Protection should prepare response" := by
  constructor
  · exact (c8_response_tiers "BI Supervision & Consumer Protection" 0).1 rfl
  · rw [(c8_response_tiers "BI Supervision & Consumer Protection" 7).2.2.2 (by omega)]
    decide

/-- C10 (confirmed): for any pillar other than RISK_FRAUD and
SYSTEM_STABILITY there is no keyword set, so any nonempty article list
is assessed LOW regardless of headline content. -/
theorem c10_no_keywords_low (pillar : String) (articles : List Article)
    (h1 : pillar ≠ "RISK_FRAUD") (h2 : pillar ≠ "SYSTEM_STABILITY")
    (h3 : articles ≠ []) :
    assessPillarRisk articles pillar = "LOW" := by
  cases articles with
  | nil => exact absurd rfl h3
  | cons a t =>
    have hk : riskKeywords pillar = none := by
      unfold riskKeywords
      rw [if_neg h1, if_neg h2]
    simp [assessPillarRisk, hk]

/-- Witness for C10: a headline full of fraud keywords is still LOW
under the MERCHANT_ADOPTION pillar. -/
theorem c10_no_keywords_low_witness :
    assessPillarRisk
        [{ title := some "Penipuan scam korban polisi lapor gangguan down error" }]
        "MERCHANT_ADOPTION" = "LOW" :=
  c10_no_keywords_low _ _ (by decide) (by decide) (by decide)

/-- C1 (amended): on any table with at least 4 qualifying records the
classifier succeeds, and each record with both values present receives
exactly the spec's first-match bucket at the spec's
inclusive-linear-interpolation quartiles of each axis's present values
(records missing a value fall to TRANSITIONAL).  A record exactly at Q1
of one axis and Q3 of the other is never TRANSITIONAL; when the
relevant quartile pair is non-degenerate it lands in OPPORTUNITY_GAPS
respectively SATURATED_MARKETS. -/
theorem c1_quadrant_classification (data : List RegionRecord)
    (h : 4 ≤ qualifyingCount data) :
    ((performQuadrantAnalysis data).toOption.map
        (fun res => res.details.map fun e => (e.province, e.quadrant))
      = some (data.map fun r =>
          (r.province,
            match r.qris_merchant_density, r.pdrb_growth_pct with
            | some x, some y =>
              specBucket (specQuantile (xsOf data) (1/4))
                (specQuantile (xsOf data) (3/4))
                (specQuantile (ysOf data) (1/4))
                (specQuantile (ysOf data) (3/4)) x y
            | _, _ => "TRANSITIONAL")))
    ∧ (∀ x y : ℚ,
        x = specQuantile (xsOf data) (1/4) →
        y = specQuantile (ysOf data) (3/4) →
        specBucket (specQuantile (xsOf data) (1/4))
            (specQuantile (xsOf data) (3/4))
            (specQuantile (ysOf data) (1/4))
            (specQuantile (ysOf data) (3/4)) x y ≠ "TRANSITIONAL"
          ∧ (specQuantile (xsOf data) (1/4) < specQuantile (xsOf data) (3/4) →
              specBucket (specQuantile (xsOf data) (1/4))
                (specQuantile (xsOf data) (3/4))
                (specQuantile (ysOf data) (1/4))
                (specQuantile (ysOf data) (3/4)) x y = "OPPORTUNITY_GAPS"))
    ∧ (∀ x y : ℚ,
        x = specQuantile (xsOf data) (3/4) →
        y = specQuantile (ysOf data) (1/4) →
        specBucket (specQuantile (xsOf data) (1/4))
            (specQuantile (xsOf data) (3/4))
            (specQuantile (ysOf data) (1/4))
            (specQuantile (ysOf data) (3/4)) x y ≠ "TRANSITIONAL"
          ∧ (specQuantile (ysOf data) (1/4) < specQuantile (ysOf data) (3/4) →
              specBucket (specQuantile (xsOf data) (1/4))
                (specQuantile (xsOf data) (3/4))
                (specQuantile (ysOf data) (1/4))
                (specQuantile (ysOf data) (3/4)) x y = "SATURATED_MARKETS")) := by
  have hlen : 4 ≤ data.length := le_trans h (List.length_filter_le _ _)
  have hq1 : 1 ≤ qualifyingCount data := by omega
  obtain ⟨hxs, hys⟩ := cols_ne_nil data hq1
  refine ⟨?_, ?_, ?_⟩
  · rw [quadrant_ok data hlen]
    simp only [Except.toOption, Option.map_some']
    unfold quadrantDetails
    rw [List.map_map]
    apply congrArg
    apply List.map_congr_left
    intro r hr
    obtain ⟨prov, oq, op⟩ := r
    cases oq with
    | none =>
      exact Prod.ext rfl (classify_fst_missing _ _ _ _ _ _ (Or.inl rfl))
    | some x =>
      cases op with
      | none =>
        exact Prod.ext rfl (classify_fst_missing _ _ _ _ _ _ (Or.inr rfl))
      | some y =>
        show (prov, (classifyQuadrant (colQuantile (xsOf data) (1/4))
            (colQuantile (xsOf data) (3/4)) (colQuantile (ysOf data) (1/4))
            (colQuantile (ysOf data) (3/4)) (some x) (some y)).1) = _
        rw [colQuantile_some _ hxs, colQuantile_some _ hxs,
          colQuantile_some _ hys, colQuantile_some _ hys, classify_fst_some,
          specQuantile_eq, specQuantile_eq, specQuantile_eq, specQuantile_eq]
  · intro x y hx hy
    subst hx
    subst hy
    exact specBucket_q1x_q3y _ _ _ _
  · intro x y hx hy
    subst hx
    subst hy
    exact specBucket_q3x_q1y _ _ _ _

/-- Witness for C1: on `d4ex` (quartiles 1.75/3.25 and 17.5/32.5) the
four records land in FOUNDATIONAL_DEVELOPMENT, TRANSITIONAL,
TRANSITIONAL and HIGH_PRIORITY_STARS, and the two boundary points land
in OPPORTUNITY_GAPS and SATURATED_MARKETS. -/
theorem c1_quadrant_classification_witness :
    ((performQuadrantAnalysis d4ex).toOption.map
        (fun res => res.details.map fun e => (e.province, e.quadrant))
      = some [("Aceh", "FOUNDATIONAL_DEVELOPMENT"), ("Bali", "TRANSITIONAL"),
              ("Jawa Barat", "TRANSITIONAL"), ("Papua", "HIGH_PRIORITY_STARS")])
    ∧ specBucket (specQuantile (xsOf d4ex) (1/4)) (specQuantile (xsOf d4ex) (3/4))
        (specQuantile (ysOf d4ex) (1/4)) (specQuantile (ysOf d4ex) (3/4))
        (specQuantile (xsOf d4ex) (1/4)) (specQuantile (ysOf d4ex) (3/4))
        = "OPPORTUNITY_GAPS"
    ∧ specBucket (specQuantile (xsOf d4ex) (1/4)) (specQuantile (xsOf d4ex) (3/4))
        (specQuantile (ysOf d4ex) (1/4)) (specQuantile (ysOf d4ex) (3/4))
        (specQuantile (xsOf d4ex) (3/4)) (specQuantile (ysOf d4ex) (1/4))
        = "SATURATED_MARKETS" := by
  have h := c1_quadrant_classification d4ex (by decide)
  refine ⟨?_, ?_, ?_⟩
  · rw [h.1]
    with_unfolding_all decide
  · exact (h.2.1 _ _ rfl rfl).2 (by with_unfolding_all decide)
  · exact (h.2.2 _ _ rfl rfl).2 (by with_unfolding_all decide)

/-- Counterexample for C1 as stated: on the degenerate table `dDeg`
every quartile of both axes equals 0, so the record D1 — exactly at Q1
of the X axis and exactly at Q3 of the Y axis — lands in
HIGH_PRIORITY_STARS, not in OPPORTUNITY_GAPS or SATURATED_MARKETS. -/
theorem c1_degenerate_boundary_cex :
    colQuantile (xsOf dDeg) (1/4) = some 0
    ∧ colQuantile (ysOf dDeg) (3/4) = some 0
    ∧ quadrantPairs dDeg =
        [("D1", "HIGH_PRIORITY_STARS"), ("D2", "HIGH_PRIORITY_STARS"),
         ("D3", "HIGH_PRIORITY_STARS"), ("D4", "HIGH_PRIORITY_STARS")]
    ∧ ("HIGH_PRIORITY_STARS" ≠ "OPPORTUNITY_GAPS"
        ∧ "HIGH_PRIORITY_STARS" ≠ "SATURATED_MARKETS") := by
  with_unfolding_all decide

/-- C5 (amended): a record with a missing value for either metric is
not zero-filled, but it is not excluded either: its value pair is among
the pairs handed to the correlation routine, and on any table of at
least 4 rows it receives the TRANSITIONAL bucket in the quadrant
classification (every boundary comparison is false on a missing
value). -/
theorem c5_missing_not_excluded (data : List RegionRecord) (r : RegionRecord)
    (hr : r ∈ data)
    (hm : r.qris_merchant_density = none ∨ r.pdrb_growth_pct = none) :
    ((r.qris_merchant_density, r.pdrb_growth_pct) ∈ correlationInputsOf data)
    ∧ (4 ≤ data.length → (r.province, "TRANSITIONAL") ∈ quadrantPairs data) := by
  constructor
  · exact List.mem_map_of_mem _ hr
  · intro h4
    rw [quadrantPairs_eq data h4]
    unfold quadrantDetails
    rw [List.map_map]
    refine List.mem_map.mpr ⟨r, hr, ?_⟩
    exact Prod.ext rfl (classify_fst_missing _ _ _ _ _ _ hm)

/-- Witness for C5: the all-missing record P5 of `d5ex` appears among
the correlation inputs and is classified TRANSITIONAL. -/
theorem c5_missing_not_excluded_witness :
    (((none, none) : Option ℚ × Option ℚ) ∈ correlationInputsOf d5ex)
    ∧ ("P5", "TRANSITIONAL") ∈ quadrantPairs d5ex := by
  have h := c5_missing_not_excluded d5ex
    { province := "P5", qris_merchant_density := none, pdrb_growth_pct := none }
    (by decide) (Or.inl rfl)
  exact ⟨h.1, h.2 (by decide)⟩

/-- Counterexample for C5 as stated: on `d5ex` the record P5 has both
metrics missing, yet its pair is passed to the correlation routine and
it receives a bucket (TRANSITIONAL) in the quadrant classification. -/
theorem c5_missing_gets_bucket_cex :
    qualifyingCount d5ex = 4
    ∧ (((none, none) : Option ℚ × Option ℚ) ∈ correlationInputsOf d5ex)
    ∧ quadrantPairs d5ex =
        [("Aceh", "FOUNDATIONAL_DEVELOPMENT"), ("Bali", "TRANSITIONAL"),
         ("Jawa Barat", "TRANSITIONAL"), ("Papua", "HIGH_PRIORITY_STARS"),
         ("P5", "TRANSITIONAL")] := by
  with_unfolding_all decide

/-- C6 (amended): on any table the classifier accepts (at least 4 rows
in total) the bucket counts sum exactly to the total number of rows —
every row, qualifying or not, receives exactly one bucket — which
exceeds the qualifying count whenever some row has a missing metric. -/
theorem c6_counts_sum (data : List RegionRecord) (h4 : 4 ≤ data.length) :
    (performQuadrantAnalysis data).toOption.map
        (fun res => (((res.counts.map Prod.snd).sum), res.details.length))
      = some (data.length, data.length) := by
  rw [quadrant_ok data h4]
  simp only [Except.toOption, Option.map_some']
  rw [sum_quadrantCounts]
  unfold quadrantDetails
  rw [List.length_map]

/-- Witness for C6: on the fully-qualifying `d4ex` the counts sum to
4 = number of rows = number of qualifying records. -/
theorem c6_counts_sum_witness :
    (performQuadrantAnalysis d4ex).toOption.map
        (fun res => (((res.counts.map Prod.snd).sum), res.details.length))
      = some (4, 4) := by
  have h := c6_counts_sum d4ex (by decide)
  exact h

/-- Counterexample for C6 as stated: `d5ex` has 4 qualifying records
but its bucket counts sum to 5, the total row count. -/
theorem c6_counts_exceed_qualifying_cex :
    qualifyingCount d5ex = 4
    ∧ (performQuadrantAnalysis d5ex).toOption.map
        (fun res => ((res.counts.map Prod.snd).sum)) = some 5 := by
  with_unfolding_all decide

/-- C7 (confirmed): for each pillar that has a keyword set, the risk
label is HIGH when at least 3 of its keywords occur as case-insensitive
substrings of the concatenated headlines, MEDIUM when at least 1 does,
and LOW otherwise. -/
theorem c7_keyword_risk_levels (pillar : String) (kws : List String)
    (articles : List Article) (h : riskKeywords pillar = some kws) :
    assessPillarRisk articles pillar =
      (if 3 ≤ specKeywordMatches kws (articles.map fun a => a.title.getD "")
       then "HIGH"
       else if 1 ≤ specKeywordMatches kws (articles.map fun a => a.title.getD "")
       then "MEDIUM"
       else "LOW") := by
  have hk : ∀ k ∈ kws, lowerStr k = k ∧ k.data ≠ [] := by
    simp only [riskKeywords] at h
    split_ifs at h
    · obtain rfl := Option.some.inj h
      decide
    · obtain rfl := Option.some.inj h
      decide
  cases articles with
  | nil =>
    have h0 : specKeywordMatches kws
        (List.map (fun a => a.title.getD "") ([] : List Article)) = 0 := by
      unfold specKeywordMatches
      refine List.countP_eq_zero.mpr ?_
      intro k hkk
      rw [(hk k hkk).1]
      have hemp : (lowerStr (joinStr " " (List.map (fun a => a.title.getD "")
          ([] : List Article)))).data = [] := by decide
      rw [hemp]
      cases hd : k.data with
      | nil => exact absurd hd (hk k hkk).2
      | cons c cs =>
        simp [occursIn, leadsWith]
    rw [h0]
    simp [assessPillarRisk]
  | cons a t =>
    have hcnt : (kws.countP fun k => keywordIn k (joinedTitles (a :: t)))
        = specKeywordMatches kws ((a :: t).map fun a => a.title.getD "") := by
      unfold specKeywordMatches
      apply List.countP_congr
      intro k hkk
      rw [(hk k hkk).1]
      unfold keywordIn
      rw [joinedTitles_eq]
    simp [assessPillarRisk, h, hcnt]

/-- Witness for C7: the spec's fraud scenario matches all 5 keywords
and is labelled HIGH. -/
theorem c7_keyword_risk_levels_witness :
    assessPillarRisk exArticles "RISK_FRAUD" = "HIGH"
    ∧ specKeywordMatches ["penipuan", "scam", "korban", "polisi", "lapor"]
        (exArticles.map fun a => a.title.getD "") = 5 := by
  constructor
  · rw [c7_keyword_risk_levels "RISK_FRAUD"
      ["penipuan", "scam", "korban", "polisi", "lapor"] exArticles rfl]
    decide
  · decide

/-- C9 (confirmed): an empty headline list is assessed LOW for any
pillar, a zero article count yields the no-action response, the
monitoring loop yields one finding per pillar whatever each collector
call does, and a failed collector call (non-200 or raised exception)
becomes an error finding whose risk level is the neutral UNKNOWN or
MONITORING_FAILED — no exception escapes the loop. -/
theorem c9_collector_failures_degrade :
    (∀ pillar : String, assessPillarRisk [] pillar = "LOW")
    ∧ (∀ team : String,
        generateResponse team 0 = "No action required - continue monitoring")
    ∧ (∀ collector : String → CollectorOutcome,
        monitorMarketSentiment collector
          = MONITORING_PILLARS.map fun pc =>
              (pc.1, processPillar pc.1 pc.2 (collector pc.1)))
    ∧ (∀ (pillar : String) (cfg : PillarConfig) (outcome : CollectorOutcome),
        collectorFailed outcome = true →
        (processPillar pillar cfg outcome).error.isSome = true
        ∧ ((processPillar pillar cfg outcome).risk_level = "UNKNOWN"
            ∨ (processPillar pillar cfg outcome).risk_level
                = "MONITORING_FAILED")) := by
  refine ⟨fun pillar => rfl, fun team => rfl, fun collector => rfl, ?_⟩
  intro pillar cfg outcome hfail
  cases outcome with
  | response status articles =>
    have hs : status ≠ 200 := by
      simpa [collectorFailed] using hfail
    simp [processPillar, hs]
  | failure msg =>
    simp [processPillar]

/-- Witness for C9: the empty list and zero count degrade to LOW and
no-action, and a concrete timed-out collector call yields an error
finding with a neutral risk level while the loop still produces one
finding per pillar. -/
theorem c9_collector_failures_degrade_witness :
    assessPillarRisk [] "CONSUMER_SENTIMENT" = "LOW"
    ∧ generateResponse "BI Payment System Operations" 0
        = "No action required - continue monitoring"
    ∧ (monitorMarketSentiment badCollector
        = MONITORING_PILLARS.map fun pc =>
            (pc.1, processPillar pc.1 pc.2 (badCollector pc.1)))
    ∧ ((processPillar "RISK_FRAUD"
          { query := "q", weight := 1, action_team := "BI Supervision & Consumer Protection" }
          (CollectorOutcome.failure "Connection timed out")).error.isSome = true
        ∧ ((processPillar "RISK_FRAUD"
              { query := "q", weight := 1, action_team := "BI Supervision & Consumer Protection" }
              (CollectorOutcome.failure "Connection timed out")).risk_level
                = "UNKNOWN"
            ∨ (processPillar "RISK_FRAUD"
                { query := "q", weight := 1, action_team := "BI Supervision & Consumer Protection" }
                (CollectorOutcome.failure "Connection timed out")).risk_level
                  = "MONITORING_FAILED")) :=
  ⟨c9_collector_failures_degrade.1 _,
   c9_collector_failures_degrade.2.1 _,
   c9_collector_failures_degrade.2.2.1 badCollector,
   c9_collector_failures_degrade.2.2.2 _ _ _ rfl⟩

end QrisEngine
